import Mathlib

set_option linter.deprecated false
set_option linter.unusedVariables false

/-!
Verification of the PrepAI mock-interview application's core logic:
score aggregation, oracle-response parsing with fallbacks, penalty
accounting, proctoring debounce, and error-status mapping.

Scores and penalties are JavaScript numbers; they are modelled as
rationals (ℚ), which is exact for every value the handlers manipulate
in the claims' ranges. Timestamps (`Date.now()`) are integers in
milliseconds, modelled as ℤ.
-/

namespace PrepAI

/-- JavaScript `Math.round`: round half toward positive infinity. -/
def jsRound (x : ℚ) : ℤ := ⌊x + 1 / 2⌋

/-- One oracle evaluation of a single answer (generate-feedback). -/
structure Evaluation where
  relevance : ℚ
  clarity : ℚ
  grammar : ℚ
  confidence : ℚ
  feedback : String
  deriving DecidableEq, Repr

/-- HTTP error response produced by an edge-function handler. -/
structure ErrorResponse where
  status : Nat
  message : String
  deriving DecidableEq, Repr

/-- JavaScript `response.ok` for an HTTP status: 200 ≤ status < 300. -/
def statusOk (status : Nat) : Prop := 200 ≤ status ∧ status < 300

instance : DecidablePred statusOk := fun s => by unfold statusOk; infer_instance

/-- Whitespace-trimming on the character list (JavaScript `trim()`). -/
def trimChars (cs : List Char) : List Char :=
  ((cs.dropWhile Char.isWhitespace).reverse.dropWhile Char.isWhitespace).reverse

/-- JavaScript `s.trim()`. -/
def jsTrim (s : String) : String := String.mk (trimChars s.data)

/-- JavaScript `s.toLowerCase()` (character-wise, which is exact for the
ASCII classifier labels involved). -/
def jsToLower (s : String) : String := String.mk (s.data.map Char.toLower)

namespace GenerateFeedback

/-- Sum of the four sub-scores of an evaluation. -/
def subTotal (e : Evaluation) : ℚ :=
  e.relevance + e.clarity + e.grammar + e.confidence

/-- One question/answer pair sent to the oracle (`answersToEvaluate`). -/
structure QA where
  question : String
  answer : String
  deriving DecidableEq, Repr

/-- Shape of the oracle's reply to the generate-feedback handler, at the
point where the handler has extracted the message content: either the
bracket-matched substring parses as a JSON array of evaluations, or
parsing fails (no bracket match, or `JSON.parse` throws). -/
inductive OracleEvalReply where
  | jsonArray (evals : List Evaluation)
  | parseFailure
  deriving DecidableEq, Repr

/-- The fallback evaluation used when the whole reply fails to parse. -/
def fallbackEvaluation : Evaluation :=
  ⟨70, 70, 75, 65, "Good attempt! Consider providing more specific examples."⟩

/-- The evaluation pushed while the list is shorter than the answers. -/
def padEvaluation : Evaluation :=
  ⟨70, 70, 75, 65, "Consider elaborating more on your response."⟩

/-- The `evaluations` list right after the try/catch: the parsed array,
or one fallback evaluation per answer on parse failure. -/
def parsedEvaluations (reply : OracleEvalReply) (answers : List QA) : List Evaluation :=
  match reply with
  | .jsonArray evals => evals
  | .parseFailure => answers.map fun _ => fallbackEvaluation

/-- The `evaluations` list after the `while (evaluations.length <
answersToEvaluate.length)` padding loop. -/
def computeEvaluations (reply : OracleEvalReply) (answers : List QA) : List Evaluation :=
  let evals := parsedEvaluations reply answers
  evals ++ List.replicate (answers.length - evals.length) padEvaluation

/-- JavaScript `x || d` on numbers: `d` when `x` is falsy (i.e. zero). -/
def jsOr (x d : ℚ) : ℚ := if x = 0 then d else x

/-- The clamp `Math.min(100, Math.max(0, x))`. -/
def clampScore (x : ℚ) : ℚ := min 100 (max 0 x)

/-- Lookup `evaluations[index]?.<field> || d`: default when the entry is absent
or the field value is falsy. -/
def scoreField (o : Option Evaluation) (f : Evaluation → ℚ) (d : ℚ) : ℚ :=
  match o with
  | some e => jsOr (f e) d
  | none => d

/-- Lookup `evaluations[index]?.feedback || "Good effort!"`. -/
def feedbackField (o : Option Evaluation) : String :=
  match o with
  | some e => if e.feedback = "" then "Good effort!" else e.feedback
  | none => "Good effort!"

/-- One row of the `answers` bulk insert. -/
structure AnswerRow where
  question : String
  answer : String
  relevance_score : ℚ
  clarity_score : ℚ
  grammar_score : ℚ
  confidence_score : ℚ
  feedback : String
  deriving DecidableEq, Repr

/-- The row built for the answer at one index. -/
def answerRow (qa : QA) (o : Option Evaluation) : AnswerRow :=
  { question := qa.question
    answer := qa.answer
    relevance_score := clampScore (scoreField o (fun e => e.relevance) 70)
    clarity_score := clampScore (scoreField o (fun e => e.clarity) 70)
    grammar_score := clampScore (scoreField o (fun e => e.grammar) 75)
    confidence_score := clampScore (scoreField o (fun e => e.confidence) 65)
    feedback := feedbackField o }

/-- The `answersToInsert` value: the clamped rows persisted to the answers table. -/
def answersToInsert (answers : List QA) (evaluations : List Evaluation) : List AnswerRow :=
  answers.enum.map fun p => answerRow p.2 (evaluations.get? p.1)

/-- The overall score before rounding, exactly as the generate-feedback
handler computes it: fold of per-answer averages divided by the list
length, then `max 0 (· - scorePenalty)` applied only when the penalty is
strictly positive. -/
def overallScoreRaw (evaluations : List Evaluation) (scorePenalty : ℚ) : ℚ :=
  let base := (evaluations.foldl (fun acc e => acc + subTotal e / 4) 0) / evaluations.length
  if scorePenalty > 0 then max 0 (base - scorePenalty) else base

/-- The overall score the handler persists in the interviews table:
`Math.round(overallScore * 10) / 10`. -/
def persistedOverallScore (evaluations : List Evaluation) (scorePenalty : ℚ) : ℚ :=
  (jsRound (overallScoreRaw evaluations scorePenalty * 10) : ℚ) / 10

/-- The overall score the handler returns in its HTTP response body:
`Math.round(overallScore)`. -/
def responseOverallScore (evaluations : List Evaluation) (scorePenalty : ℚ) : ℤ :=
  jsRound (overallScoreRaw evaluations scorePenalty)

/-- The error response for a non-ok oracle status in generate-feedback:
429 and 402 are returned directly with dedicated messages; any other
status is thrown and becomes a 500 with the thrown message. -/
def failureResponse (status : Nat) : ErrorResponse :=
  if status = 429 then ⟨429, "Rate limit exceeded. Please try again later."⟩
  else if status = 402 then ⟨402, "AI credits exhausted. Please add more credits."⟩
  else ⟨500, "AI gateway error: " ++ toString status⟩

/-- Spec-side definition: the mean of the four sub-scores of one
evaluation. -/
def evalMean (e : Evaluation) : ℚ := (e.relevance + e.clarity + e.grammar + e.confidence) / 4

/-- Spec-side definition: the mean over all evaluations of the
per-evaluation means. -/
def meanOfMeans (evaluations : List Evaluation) : ℚ :=
  (evaluations.map evalMean).sum / evaluations.length

/-- Spec-side definition of the aggregate claim C1 describes:
`max(0, meanOfMeans − P)` rounded to one decimal place. -/
def specAggregate (evaluations : List Evaluation) (scorePenalty : ℚ) : ℚ :=
  (jsRound (max 0 (meanOfMeans evaluations - scorePenalty) * 10) : ℚ) / 10

/-- All four sub-scores lie in [0, 100]. -/
def inRange (e : Evaluation) : Prop :=
  0 ≤ e.relevance ∧ e.relevance ≤ 100 ∧ 0 ≤ e.clarity ∧ e.clarity ≤ 100 ∧
    0 ≤ e.grammar ∧ e.grammar ≤ 100 ∧ 0 ≤ e.confidence ∧ e.confidence ≤ 100

instance : DecidablePred inRange := fun e => by unfold inRange; infer_instance

end GenerateFeedback

namespace GenerateQuestions

/-- Shape of the oracle's reply to the generate-questions handler, seen
from the parsing code: the content either contains a bracket-matched
substring that parses as a JSON array of strings, contains one that
makes `JSON.parse` throw, or contains no bracket match at all (plain
text, kept as its raw lines). -/
inductive OracleQuestionsReply where
  | jsonArray (xs : List String)
  | malformedJson
  | plainText (lines : List String)
  deriving DecidableEq, Repr

/-- The three canned fallback question sets. -/
def fallbackSets : List (List String) :=
  [["What drew you to this career path?",
    "Describe your approach to solving complex problems.",
    "How do you prioritize competing deadlines?",
    "Tell me about a time you led a team.",
    "What's your biggest professional achievement?"],
   ["What excites you most about this role?",
    "How do you handle constructive criticism?",
    "Describe a project that challenged you.",
    "How do you stay updated with industry trends?",
    "What would you change about your last project?"],
   ["Why are you passionate about this field?",
    "How do you approach learning new skills?",
    "Tell me about a failure and what you learned.",
    "How do you collaborate with remote teams?",
    "What metrics do you use to measure success?"]]

/-- The generic filler question pushed while fewer than 5 questions. -/
def fillerQuestion : String := "What unique perspective would you bring to our team?"

/-- Behaviour of the regex replacement stripping a numbered-list marker:
remove a leading run of digits followed by a dot and any whitespace;
leave the line unchanged when that pattern is absent. -/
def dropNumberMark (cs : List Char) : List Char :=
  if (cs.takeWhile Char.isDigit) = [] then cs
  else
    match cs.dropWhile Char.isDigit with
    | '.' :: rest => rest.dropWhile Char.isWhitespace
    | _ => cs

/-- Behaviour of the regex replacement stripping a bullet marker: remove
one leading dash or asterisk and following whitespace. -/
def dropBulletMark (cs : List Char) : List Char :=
  match cs with
  | c :: rest => if c = '-' ∨ c = '*' then rest.dropWhile Char.isWhitespace else cs
  | [] => []

/-- The per-line cleanup of the line-splitting fallback:
`q.replace(/^\d+\.\s*/, "").replace(/^[-*]\s*/, "").trim()`. -/
def cleanLine (s : String) : String :=
  jsTrim (String.mk (dropBulletMark (dropNumberMark s.data)))

/-- The `questions` list right after the try/catch of the
generate-questions handler: the parsed JSON array; or, without a bracket
match, the lines of the content filtered to trimmed length > 10, sliced
to 5 and cleaned; or, when `JSON.parse` throws, the canned set selected
by `randomSeed % 3`. -/
def parsedQuestions (reply : OracleQuestionsReply) (randomSeed : Nat) : List String :=
  match reply with
  | .jsonArray xs => xs
  | .plainText lines =>
      ((lines.filter fun l => (jsTrim l).length > 10).take 5).map cleanLine
  | .malformedJson => (fallbackSets.get? (randomSeed % 3)).getD []

/-- The final `questions` value: padded with the filler while shorter
than 5, then sliced to exactly 5. -/
def generateQuestions (reply : OracleQuestionsReply) (randomSeed : Nat) : List String :=
  let qs := parsedQuestions reply randomSeed
  (qs ++ List.replicate (5 - qs.length) fillerQuestion).take 5

/-- The error response for a non-ok oracle status in generate-questions
(the branch is letter-for-letter the one in generate-feedback). -/
def failureResponse (status : Nat) : ErrorResponse :=
  if status = 429 then ⟨429, "Rate limit exceeded. Please try again later."⟩
  else if status = 402 then ⟨402, "AI credits exhausted. Please add more credits."⟩
  else ⟨500, "AI gateway error: " ++ toString status⟩

/-- The distinct, user-visible failure kinds of §4.2/§7 of the spec. -/
inductive OracleErrorKind where
  | rateLimited
  | quotaExhausted
  | oracleError
  deriving DecidableEq, Repr

/-- The kind a non-ok oracle status is surfaced as, read off the
handlers' branches. -/
def classifyStatus (status : Nat) : OracleErrorKind :=
  if status = 429 then .rateLimited
  else if status = 402 then .quotaExhausted
  else .oracleError

end GenerateQuestions

namespace DeviceDetection

/-- One prediction returned by the object-classification capability. -/
structure Prediction where
  label : String
  score : ℚ
  deriving DecidableEq, Repr

/-- A `DetectedDevice` log entry. -/
structure DetectedDevice where
  class_ : String
  score : ℚ
  timestamp : ℤ
  deriving DecidableEq, Repr

/-- The `SUSPICIOUS_OBJECTS` vocabulary. -/
def suspiciousObjects : List String :=
  ["cell phone", "mobile phone", "book", "laptop", "remote", "tablet", "computer"]

/-- Whether `pat` occurs at the start of `cs`. -/
def leadsWith : List Char → List Char → Bool
  | [], _ => true
  | _ :: _, [] => false
  | p :: ps, c :: cs => p = c && leadsWith ps cs

/-- JavaScript `s.includes(pat)`: substring occurrence. -/
def containsSub (cs pat : List Char) : Bool :=
  match cs with
  | [] => leadsWith pat []
  | _ :: rest => leadsWith pat cs || containsSub rest pat

/-- The filter of `detectObjects`: the lower-cased label contains one of
the suspicious-object names and the score is above 0.5. -/
def isSuspicious (p : Prediction) : Bool :=
  (suspiciousObjects.any fun obj => containsSub (jsToLower p.label).data obj.data) &&
    decide (p.score > mkRat 1 2)

/-- JavaScript set construction: deduplication keeping first occurrences. -/
def dedupFirst (xs : List String) : List String :=
  xs.foldl (fun acc x => if x ∈ acc then acc else acc ++ [x]) []

/-- The mutable state touched by one `detectObjects` call. -/
structure DetectorState where
  lastWarningTime : ℤ
  deviceWarningCount : Nat
  currentDeviceWarning : Option String
  detectedDevices : List DetectedDevice
  deriving DecidableEq, Repr

/-- The initial detector state (`lastWarningTimeRef` starts at 0). -/
def initialDetectorState : DetectorState := ⟨0, 0, none, []⟩

/-- One `detectObjects` invocation of the sampling loop, given the
predictions returned by the classifier and the current time in
milliseconds: if any suspicious item is present and strictly more than
5000 ms have passed since the last warning, append the detected devices,
raise exactly one warning with the deduplicated labels, and move the
debounce timestamp; otherwise leave the state unchanged. -/
def detectObjects (st : DetectorState) (predictions : List Prediction) (now : ℤ) :
    DetectorState :=
  let suspiciousItems := predictions.filter isSuspicious
  if suspiciousItems.isEmpty then st
  else if now - st.lastWarningTime > 5000 then
    let deviceNames := dedupFirst (suspiciousItems.map fun p => p.label)
    { lastWarningTime := now
      deviceWarningCount := st.deviceWarningCount + 1
      currentDeviceWarning := some (String.intercalate ", " deviceNames)
      detectedDevices := st.detectedDevices ++ deviceNames.map fun name =>
        ⟨name, ((suspiciousItems.find? fun p => p.label = name).map fun p => p.score).getD 0,
          now⟩ }
  else st

end DeviceDetection

namespace InterviewPage

/-- The `step` state of the Interview page, plus a terminal marker for
having navigated to the feedback page. -/
inductive Step where
  | role
  | interview
  | submitting
  | completed
  deriving DecidableEq, Repr

/-- The penalty-relevant client state of one interview session. -/
structure PenaltyState where
  step : Step
  tabSwitchCount : Nat
  deviceWarningCount : Nat
  scorePenalty : Nat
  deriving DecidableEq, Repr

/-- The state when the Interview page mounts. -/
def initialPenaltyState : PenaltyState := ⟨.role, 0, 0, 0⟩

/-- The events that drive the penalty ledger. -/
inductive PenaltyEvent where
  /-- Questions obtained; `setStep("interview")`. -/
  | questionsLoaded
  /-- A `visibilitychange` event with `document.hidden` true. -/
  | visibilityHidden
  /-- The device-detection hook increments `deviceWarningCount`. -/
  | deviceWarningRaised
  /-- Submission begins: `setStep("submitting")`. -/
  | submitStart
  /-- The feedback call fails: `setStep("interview")`. -/
  | submitFail
  /-- The feedback call succeeds: navigate to the feedback page. -/
  | submitSuccess
  deriving DecidableEq, Repr

/-- The device-penalty `useEffect` (deps `[deviceWarningCount, step]`):
after a render in which one of its dependencies changed, it adds 10 to
`scorePenalty` whenever `deviceWarningCount > 0 && step === "interview"`. -/
def devicePenaltyEffect (s : PenaltyState) : PenaltyState :=
  if s.deviceWarningCount > 0 ∧ s.step = .interview then
    { s with scorePenalty := s.scorePenalty + 10 }
  else s

/-- One event step of the penalty state machine. The device-penalty
effect re-runs after every event that changes one of its dependencies
(`deviceWarningCount` or `step`). The visibility listener is attached
only while `step === "interview"`; device warnings are only raised while
detection runs, which is only during the interview step. -/
def penaltyStep (s : PenaltyState) (e : PenaltyEvent) : PenaltyState :=
  match e with
  | .questionsLoaded =>
      if s.step = .role then devicePenaltyEffect { s with step := .interview } else s
  | .visibilityHidden =>
      if s.step = .interview then
        { s with tabSwitchCount := s.tabSwitchCount + 1, scorePenalty := s.scorePenalty + 5 }
      else s
  | .deviceWarningRaised =>
      if s.step = .interview then
        devicePenaltyEffect { s with deviceWarningCount := s.deviceWarningCount + 1 }
      else s
  | .submitStart =>
      if s.step = .interview then devicePenaltyEffect { s with step := .submitting } else s
  | .submitFail =>
      if s.step = .submitting then devicePenaltyEffect { s with step := .interview } else s
  | .submitSuccess =>
      if s.step = .submitting then { s with step := .completed } else s

/-- Run a trace of events from a state. -/
def runPenalty (s : PenaltyState) (events : List PenaltyEvent) : PenaltyState :=
  events.foldl penaltyStep s

/-- One row of the `interviews` table as the client creates it. -/
structure InterviewRecord where
  id : Nat
  role : String
  status : String
  deriving DecidableEq, Repr

/-- The client state touched by `generateQuestions` on the Interview
page, together with the persisted interviews it has created. -/
structure ClientState where
  step : Step
  questions : List String
  interviewId : Option Nat
  dbInterviews : List InterviewRecord
  deriving DecidableEq, Repr

/-- Outcome of the `generate-questions` edge-function invocation. -/
inductive InvokeOutcome where
  | success (questions : List String)
  | failure (response : ErrorResponse)
  deriving DecidableEq, Repr

/-- The client's `generateQuestions` flow: it first inserts an
interview record with status `in_progress` and stores its id, then
invokes the generate-questions function; on success it stores the
questions and moves to the interview step, and on failure the catch
block only shows a toast — nothing is rolled back. (The path where the
insert itself fails throws before the oracle is invoked and is not
modelled.) -/
def clientGenerateQuestions (s : ClientState) (role : String) (newId : Nat)
    (outcome : InvokeOutcome) : ClientState :=
  let s1 := { s with
    dbInterviews := s.dbInterviews ++ [⟨newId, role, "in_progress"⟩]
    interviewId := some newId }
  match outcome with
  | .success qs => { s1 with questions := qs, step := .interview }
  | .failure _ => s1

/-- One question with its (optional, write-once) answer. -/
structure QuestionRec where
  text : String
  answer : Option String
  deriving DecidableEq, Repr

/-- The client state touched by `handleNext`/`submitInterview`. -/
structure SubmitState where
  step : Step
  questions : List QuestionRec
  currentQuestion : Nat
  currentAnswer : String
  deriving DecidableEq, Repr

/-- Outcome of the `generate-feedback` invocation during submission. -/
inductive SubmitOutcome where
  | ok
  | err
  deriving DecidableEq, Repr

/-- The assignment recording the current answer at the current index. -/
def setAnswer (qs : List QuestionRec) (i : Nat) (a : String) : List QuestionRec :=
  match qs.get? i with
  | some q => qs.set i { q with answer := some a }
  | none => qs

/-- The `submitInterview` flow: enters the submitting step, then on success
navigates to the feedback page (terminal `completed`) and on failure
returns to the interview step; the questions array and current index
are untouched by the failure path. -/
def submitInterview (s : SubmitState) (outcome : SubmitOutcome) : SubmitState :=
  let s1 := { s with step := Step.submitting }
  match outcome with
  | .ok => { s1 with step := .completed }
  | .err => { s1 with step := .interview }

/-- The `handleNext` flow: record the current answer into the current question;
then advance to the next question (clearing the answer box) or, at the
last question, submit. -/
def handleNext (s : SubmitState) (outcome : SubmitOutcome) : SubmitState :=
  let updated := setAnswer s.questions s.currentQuestion s.currentAnswer
  if s.currentQuestion < s.questions.length - 1 then
    { s with
      questions := updated
      currentQuestion := s.currentQuestion + 1
      currentAnswer := "" }
  else
    submitInterview { s with questions := updated } outcome

end InterviewPage

/-! ## Helper lemmas -/

theorem jsRound_nonneg {x : ℚ} (h : 0 ≤ x) : 0 ≤ jsRound x := by
  apply Int.le_floor.mpr
  push_cast
  linarith

theorem jsRound_le_of_le {x : ℚ} {z : ℤ} (h : x ≤ z) : jsRound x ≤ z := by
  have hlt : jsRound x < z + 1 := by
    apply Int.floor_lt.mpr
    push_cast
    linarith
  omega

namespace GenerateFeedback

theorem foldl_quarter (l : List Evaluation) (init : ℚ) :
    l.foldl (fun acc e => acc + subTotal e / 4) init = init + (l.map evalMean).sum := by
  induction l generalizing init with
  | nil => simp
  | cons e t ih =>
    simp only [List.foldl_cons, List.map_cons, List.sum_cons, ih]
    unfold subTotal evalMean
    ring

theorem overallScoreRaw_eq (l : List Evaluation) (p : ℚ) :
    overallScoreRaw l p =
      if p > 0 then max 0 (meanOfMeans l - p) else meanOfMeans l := by
  unfold overallScoreRaw meanOfMeans
  rw [foldl_quarter]
  simp

theorem evalMean_bounds {e : Evaluation} (h : inRange e) :
    0 ≤ evalMean e ∧ evalMean e ≤ 100 := by
  obtain ⟨h1, h2, h3, h4, h5, h6, h7, h8⟩ := h
  unfold evalMean
  constructor
  · positivity
  · rw [div_le_iff₀ (by norm_num : (0:ℚ) < 4)]
    linarith

theorem meanOfMeans_bounds {l : List Evaluation} (hne : l ≠ [])
    (h : ∀ e ∈ l, inRange e) : 0 ≤ meanOfMeans l ∧ meanOfMeans l ≤ 100 := by
  have hlen : 0 < (l.length : ℚ) := by
    have : 0 < l.length := List.length_pos.mpr hne
    exact_mod_cast this
  constructor
  · apply div_nonneg _ (le_of_lt hlen)
    apply List.sum_nonneg
    intro x hx
    obtain ⟨e, he, rfl⟩ := List.mem_map.mp hx
    exact (evalMean_bounds (h e he)).1
  · rw [meanOfMeans, div_le_iff₀ hlen]
    have hb : (l.map evalMean).sum ≤ (l.map evalMean).length • (100 : ℚ) := by
      apply List.sum_le_card_nsmul
      intro x hx
      obtain ⟨e, he, rfl⟩ := List.mem_map.mp hx
      exact (evalMean_bounds (h e he)).2
    simpa [nsmul_eq_mul, mul_comm] using hb

theorem clampScore_bounds (x : ℚ) : 0 ≤ clampScore x ∧ clampScore x ≤ 100 :=
  ⟨le_min (by norm_num) (le_max_left 0 x), min_le_left 100 _⟩

/-! ## Claim C1 -/

/-- C1: for every nonempty list of evaluations whose four sub-scores are
each in [0,100] and every penalty P ≥ 0, the persisted overall score
equals max(0, mean over all evaluations of the per-evaluation mean − P)
rounded to one decimal place, and it lies in [0,100]. -/
theorem C1_persisted_overall_score (l : List Evaluation) (p : ℚ)
    (hne : l ≠ []) (hr : ∀ e ∈ l, inRange e) (hp : 0 ≤ p) :
    persistedOverallScore l p = specAggregate l p ∧
      0 ≤ persistedOverallScore l p ∧ persistedOverallScore l p ≤ 100 := by
  obtain ⟨hm0, hm100⟩ := meanOfMeans_bounds hne hr
  have hraw : overallScoreRaw l p = max 0 (meanOfMeans l - p) := by
    rw [overallScoreRaw_eq]
    by_cases hp' : p > 0
    · simp [hp']
    · have hp0 : p = 0 := le_antisymm (not_lt.mp hp') hp
      simp [hp', hp0, max_eq_right hm0]
  have heq : persistedOverallScore l p = specAggregate l p := by
    unfold persistedOverallScore specAggregate
    rw [hraw]
  have hz0 : 0 ≤ jsRound (max 0 (meanOfMeans l - p) * 10) := by
    apply jsRound_nonneg
    have := le_max_left (0:ℚ) (meanOfMeans l - p)
    nlinarith
  have hz1000 : jsRound (max 0 (meanOfMeans l - p) * 10) ≤ (1000 : ℤ) := by
    apply jsRound_le_of_le
    have : max 0 (meanOfMeans l - p) ≤ 100 := max_le (by norm_num) (by linarith)
    push_cast
    nlinarith
  refine ⟨heq, ?_, ?_⟩
  · rw [heq]
    unfold specAggregate
    apply div_nonneg _ (by norm_num : (0:ℚ) ≤ 10)
    exact_mod_cast hz0
  · rw [heq]
    unfold specAggregate
    rw [div_le_iff₀ (by norm_num : (0:ℚ) < 10)]
    have : (jsRound (max 0 (meanOfMeans l - p) * 10) : ℚ) ≤ 1000 := by exact_mod_cast hz1000
    linarith

/-- Witness for C1 at the spec's own scenario: five evaluations all
averaging 80 and a 20-point penalty give a persisted score of 60.0. -/
theorem C1_persisted_overall_score_witness :
    (persistedOverallScore
        [⟨80, 80, 80, 80, "ok"⟩, ⟨80, 80, 80, 80, "ok"⟩, ⟨80, 80, 80, 80, "ok"⟩,
          ⟨80, 80, 80, 80, "ok"⟩, ⟨80, 80, 80, 80, "ok"⟩] 20 =
      specAggregate
        [⟨80, 80, 80, 80, "ok"⟩, ⟨80, 80, 80, 80, "ok"⟩, ⟨80, 80, 80, 80, "ok"⟩,
          ⟨80, 80, 80, 80, "ok"⟩, ⟨80, 80, 80, 80, "ok"⟩] 20 ∧
      0 ≤ persistedOverallScore
        [⟨80, 80, 80, 80, "ok"⟩, ⟨80, 80, 80, 80, "ok"⟩, ⟨80, 80, 80, 80, "ok"⟩,
          ⟨80, 80, 80, 80, "ok"⟩, ⟨80, 80, 80, 80, "ok"⟩] 20 ∧
      persistedOverallScore
        [⟨80, 80, 80, 80, "ok"⟩, ⟨80, 80, 80, 80, "ok"⟩, ⟨80, 80, 80, 80, "ok"⟩,
          ⟨80, 80, 80, 80, "ok"⟩, ⟨80, 80, 80, 80, "ok"⟩] 20 ≤ 100) ∧
    persistedOverallScore
        [⟨80, 80, 80, 80, "ok"⟩, ⟨80, 80, 80, 80, "ok"⟩, ⟨80, 80, 80, 80, "ok"⟩,
          ⟨80, 80, 80, 80, "ok"⟩, ⟨80, 80, 80, 80, "ok"⟩] 20 = 60 :=
  ⟨C1_persisted_overall_score _ _ (by simp) (by norm_num [inRange]) (by norm_num),
   by norm_num [persistedOverallScore, overallScoreRaw, subTotal, jsRound, max_def]⟩

/-! ## Claim C2 -/

/-- C2 as stated is false: the overall score is computed from the raw,
unclamped evaluations, so a single out-of-range oracle evaluation (all
sub-scores 200, penalty 0) yields a persisted overall score of 200,
outside [0,100]. -/
theorem C2_counterexample :
    persistedOverallScore [⟨200, 200, 200, 200, "ok"⟩] 0 = 200 ∧
      ¬ persistedOverallScore [⟨200, 200, 200, 200, "ok"⟩] 0 ≤ 100 := by
  norm_num [persistedOverallScore, overallScoreRaw, subTotal, jsRound]

/-- C2 (amended): the sub-scores are clamped to [0,100] only when
building the stored per-answer rows (`answersToInsert`), so every stored
per-answer score lies in [0,100]; the overall score is computed from the
unclamped evaluations and is not protected. -/
theorem C2_stored_scores_clamped (answers : List QA) (evaluations : List Evaluation)
    (row : AnswerRow) (hrow : row ∈ answersToInsert answers evaluations) :
    0 ≤ row.relevance_score ∧ row.relevance_score ≤ 100 ∧
      0 ≤ row.clarity_score ∧ row.clarity_score ≤ 100 ∧
      0 ≤ row.grammar_score ∧ row.grammar_score ≤ 100 ∧
      0 ≤ row.confidence_score ∧ row.confidence_score ≤ 100 := by
  unfold answersToInsert at hrow
  obtain ⟨p, _, rfl⟩ := List.mem_map.mp hrow
  exact ⟨(clampScore_bounds _).1, (clampScore_bounds _).2, (clampScore_bounds _).1,
    (clampScore_bounds _).2, (clampScore_bounds _).1, (clampScore_bounds _).2,
    (clampScore_bounds _).1, (clampScore_bounds _).2⟩

/-- Witness for the amended C2: a row built from an out-of-range
evaluation (relevance 200, clarity 0, grammar −5, confidence 101) has
all stored scores in [0,100]; concretely they clamp to 100, 70 (the
zero falls back to the 70 default), 0 and 100. -/
theorem C2_stored_scores_clamped_witness :
    (0 ≤ (answerRow ⟨"q", "a"⟩ (some ⟨200, 0, -5, 101, "f"⟩)).relevance_score ∧
      (answerRow ⟨"q", "a"⟩ (some ⟨200, 0, -5, 101, "f"⟩)).relevance_score ≤ 100 ∧
      0 ≤ (answerRow ⟨"q", "a"⟩ (some ⟨200, 0, -5, 101, "f"⟩)).clarity_score ∧
      (answerRow ⟨"q", "a"⟩ (some ⟨200, 0, -5, 101, "f"⟩)).clarity_score ≤ 100 ∧
      0 ≤ (answerRow ⟨"q", "a"⟩ (some ⟨200, 0, -5, 101, "f"⟩)).grammar_score ∧
      (answerRow ⟨"q", "a"⟩ (some ⟨200, 0, -5, 101, "f"⟩)).grammar_score ≤ 100 ∧
      0 ≤ (answerRow ⟨"q", "a"⟩ (some ⟨200, 0, -5, 101, "f"⟩)).confidence_score ∧
      (answerRow ⟨"q", "a"⟩ (some ⟨200, 0, -5, 101, "f"⟩)).confidence_score ≤ 100) ∧
    (answerRow ⟨"q", "a"⟩ (some ⟨200, 0, -5, 101, "f"⟩)).relevance_score = 100 ∧
      (answerRow ⟨"q", "a"⟩ (some ⟨200, 0, -5, 101, "f"⟩)).clarity_score = 70 ∧
      (answerRow ⟨"q", "a"⟩ (some ⟨200, 0, -5, 101, "f"⟩)).grammar_score = 0 ∧
      (answerRow ⟨"q", "a"⟩ (some ⟨200, 0, -5, 101, "f"⟩)).confidence_score = 100 :=
  ⟨C2_stored_scores_clamped [⟨"q", "a"⟩] [⟨200, 0, -5, 101, "f"⟩] _
      (List.mem_cons_self _ _),
   by norm_num [answerRow, clampScore, scoreField, jsOr, max_def, min_def]⟩

/-! ## Claim C4 -/

/-- C4 as stated is false: when the oracle returns more evaluations than
there are answers, the handler does not truncate, so the evaluations
list is longer than the input (length 2 for 1 answer). -/
theorem C4_counterexample :
    (computeEvaluations (.jsonArray [fallbackEvaluation, fallbackEvaluation])
        [⟨"q", "a"⟩]).length = 2 ∧
      ¬ (computeEvaluations (.jsonArray [fallbackEvaluation, fallbackEvaluation])
          [⟨"q", "a"⟩]).length = ([⟨"q", "a"⟩] : List QA).length := by
  refine ⟨?_, ?_⟩
  · simp [computeEvaluations, parsedEvaluations]
  · simp [computeEvaluations, parsedEvaluations]

/-- C4 (amended): the evaluations list is never shorter than the input —
on parse failure it is one fixed fallback evaluation per answer, and a
parsed list shorter than the input is padded with the fixed pad
evaluation up to the input length — but a parsed list longer than the
input is kept whole, so the length is the maximum of the two. -/
theorem C4_evaluations_padding (answers : List QA) :
    (∀ reply, answers.length ≤ (computeEvaluations reply answers).length) ∧
      computeEvaluations .parseFailure answers = answers.map (fun _ => fallbackEvaluation) ∧
      ∀ evals : List Evaluation,
        (computeEvaluations (.jsonArray evals) answers).length = max evals.length answers.length ∧
          (evals.length ≤ answers.length →
            computeEvaluations (.jsonArray evals) answers =
              evals ++ List.replicate (answers.length - evals.length) padEvaluation) := by
  refine ⟨?_, ?_, ?_⟩
  · intro reply
    cases reply
    · simp only [computeEvaluations, parsedEvaluations, List.length_append,
        List.length_replicate]
      omega
    · simp only [computeEvaluations, parsedEvaluations, List.length_append,
        List.length_replicate, List.length_map]
      omega
  · simp [computeEvaluations, parsedEvaluations]
  · intro evals
    constructor
    · simp [computeEvaluations, parsedEvaluations]
      omega
    · intro _
      simp [computeEvaluations, parsedEvaluations]

/-- Witness for the amended C4: one parsed evaluation for two answers is
padded to exactly two entries, the second being the pad evaluation. -/
theorem C4_evaluations_padding_witness :
    computeEvaluations (.jsonArray [fallbackEvaluation]) [⟨"q1", "a1"⟩, ⟨"q2", "a2"⟩] =
        [fallbackEvaluation] ++
          List.replicate (([⟨"q1", "a1"⟩, ⟨"q2", "a2"⟩] : List QA).length -
            ([fallbackEvaluation] : List Evaluation).length) padEvaluation ∧
      computeEvaluations (.jsonArray [fallbackEvaluation]) [⟨"q1", "a1"⟩, ⟨"q2", "a2"⟩] =
        [fallbackEvaluation, padEvaluation] :=
  ⟨((C4_evaluations_padding [⟨"q1", "a1"⟩, ⟨"q2", "a2"⟩]).2.2 [fallbackEvaluation]).2
      (by norm_num),
   by simp [computeEvaluations, parsedEvaluations, List.replicate]⟩

/-! ## Claim C10 -/

/-- C10: the handler persists the overall score rounded to one decimal
place but returns it rounded to the nearest integer; at a single
evaluation scoring 80/80/80/78 with no penalty, the persisted score is
79.5 while the response carries 80. -/
theorem C10_response_integer_rounding :
    persistedOverallScore [⟨80, 80, 80, 78, "x"⟩] 0 = 159 / 2 ∧
      responseOverallScore [⟨80, 80, 80, 78, "x"⟩] 0 = 80 ∧
      (responseOverallScore [⟨80, 80, 80, 78, "x"⟩] 0 : ℚ) ≠
        persistedOverallScore [⟨80, 80, 80, 78, "x"⟩] 0 := by
  norm_num [persistedOverallScore, responseOverallScore, overallScoreRaw, subTotal, jsRound]

end GenerateFeedback

namespace GenerateQuestions

theorem padFive_length (qs : List String) :
    ((qs ++ List.replicate (5 - qs.length) fillerQuestion).take 5).length = 5 := by
  simp only [List.length_take, List.length_append, List.length_replicate]
  omega

/-! ## Claim C3 -/

/-- C3 as stated is false: a well-formed JSON array of five empty
strings is returned as-is, so the five returned strings are not all
non-empty. -/
theorem C3_counterexample :
    generateQuestions (.jsonArray ["", "", "", "", ""]) 0 = ["", "", "", "", ""] ∧
      "" ∈ generateQuestions (.jsonArray ["", "", "", "", ""]) 0 := by
  refine ⟨by decide, ?_⟩
  decide

/-- C3 (amended): `generateQuestions` always returns exactly 5 strings
(not necessarily non-empty): a `JSON.parse` exception falls back to the
canned 5-question set selected by `seed % 3`; a parsed array with at
least 5 entries is truncated to its first 5; one with fewer entries is
padded with the generic filler question; plain text with no JSON array
is handled by line-splitting rather than the canned sets. -/
theorem C3_exactly_five (reply : OracleQuestionsReply) (seed : Nat) :
    (generateQuestions reply seed).length = 5 ∧
      generateQuestions .malformedJson seed = (fallbackSets.get? (seed % 3)).getD [] ∧
      (∀ xs : List String, 5 ≤ xs.length →
        generateQuestions (.jsonArray xs) seed = xs.take 5) ∧
      (∀ xs : List String, xs.length ≤ 5 →
        generateQuestions (.jsonArray xs) seed =
          xs ++ List.replicate (5 - xs.length) fillerQuestion) ∧
      ∀ lines : List String,
        generateQuestions (.plainText lines) seed =
          (((lines.filter fun l => (jsTrim l).length > 10).take 5).map cleanLine ++
              List.replicate
                (5 - (((lines.filter fun l => (jsTrim l).length > 10).take 5).map
                  cleanLine).length)
                fillerQuestion).take 5 := by
  refine ⟨?_, ?_, ?_, ?_, ?_⟩
  · exact padFive_length (parsedQuestions reply seed)
  · have h3 : seed % 3 = 0 ∨ seed % 3 = 1 ∨ seed % 3 = 2 := by omega
    rcases h3 with h | h | h <;>
      simp [generateQuestions, parsedQuestions, h, fallbackSets]
  · intro xs hxs
    have h0 : 5 - xs.length = 0 := by omega
    simp [generateQuestions, parsedQuestions, h0]
  · intro xs hxs
    have hlen : (xs ++ List.replicate (5 - xs.length) fillerQuestion).length = 5 := by
      simp only [List.length_append, List.length_replicate]
      omega
    unfold generateQuestions parsedQuestions
    exact List.take_of_length_le (le_of_eq hlen)
  · intro lines
    rfl

/-- Witness for the amended C3 at the spec's probe shapes: a 7-element
array is truncated to its first 5, a 3-element array is padded with two
fillers, and the empty array yields five fillers. -/
theorem C3_exactly_five_witness :
    (generateQuestions (.jsonArray ["a", "b", "c", "d", "e", "f", "g"]) 7 =
        (["a", "b", "c", "d", "e", "f", "g"] : List String).take 5 ∧
      generateQuestions (.jsonArray ["a", "b", "c"]) 7 =
        ["a", "b", "c"] ++ List.replicate (5 - (["a", "b", "c"] : List String).length)
          fillerQuestion ∧
      generateQuestions .malformedJson 7 = (fallbackSets.get? (7 % 3)).getD []) ∧
    generateQuestions (.jsonArray []) 7 =
        [fillerQuestion, fillerQuestion, fillerQuestion, fillerQuestion, fillerQuestion] ∧
      generateQuestions .malformedJson 7 =
        ["What excites you most about this role?",
          "How do you handle constructive criticism?",
          "Describe a project that challenged you.",
          "How do you stay updated with industry trends?",
          "What would you change about your last project?"] :=
  ⟨⟨(C3_exactly_five (.jsonArray ["a", "b", "c", "d", "e", "f", "g"]) 7).2.2.1 _
      (by decide),
    (C3_exactly_five (.jsonArray ["a", "b", "c"]) 7).2.2.2.1 _ (by decide),
    (C3_exactly_five .malformedJson 7).2.1⟩,
   by decide, by decide⟩

end GenerateQuestions

/-! ## Claim C7 -/

/-- C7: for every non-success oracle status, both handlers surface 429
as the distinct rate-limited response, 402 as the distinct
quota-exhausted response, and everything else as the generic 500 error;
the two handlers' mappings coincide. -/
theorem C7_error_status_mapping (status : Nat) (h : ¬ statusOk status) :
    GenerateQuestions.failureResponse status = GenerateFeedback.failureResponse status ∧
      ((GenerateQuestions.failureResponse status).status = 429 ↔ status = 429) ∧
      ((GenerateQuestions.failureResponse status).status = 402 ↔ status = 402) ∧
      (status ≠ 429 → status ≠ 402 →
        (GenerateQuestions.failureResponse status).status = 500) ∧
      (GenerateQuestions.classifyStatus status =
          GenerateQuestions.OracleErrorKind.rateLimited ↔ status = 429) ∧
      (GenerateQuestions.classifyStatus status =
          GenerateQuestions.OracleErrorKind.quotaExhausted ↔ status = 402) := by
  unfold GenerateQuestions.failureResponse GenerateFeedback.failureResponse
    GenerateQuestions.classifyStatus
  by_cases h429 : status = 429
  · simp [h429]
  · by_cases h402 : status = 402
    · simp [h429, h402]
    · simp [h429, h402]

/-- Witness for C7 at status 429, together with the concrete responses
for 402 and 500. -/
theorem C7_error_status_mapping_witness :
    (GenerateQuestions.failureResponse 429 = GenerateFeedback.failureResponse 429 ∧
      ((GenerateQuestions.failureResponse 429).status = 429 ↔ (429 : Nat) = 429) ∧
      ((GenerateQuestions.failureResponse 429).status = 402 ↔ (429 : Nat) = 402) ∧
      ((429 : Nat) ≠ 429 → (429 : Nat) ≠ 402 →
        (GenerateQuestions.failureResponse 429).status = 500) ∧
      (GenerateQuestions.classifyStatus 429 =
          GenerateQuestions.OracleErrorKind.rateLimited ↔ (429 : Nat) = 429) ∧
      (GenerateQuestions.classifyStatus 429 =
          GenerateQuestions.OracleErrorKind.quotaExhausted ↔ (429 : Nat) = 402)) ∧
    (GenerateQuestions.failureResponse 429).message =
        "Rate limit exceeded. Please try again later." ∧
      (GenerateQuestions.failureResponse 402).status = 402 ∧
      (GenerateQuestions.failureResponse 500).status = 500 ∧
      (GenerateFeedback.failureResponse 402).message =
        "AI credits exhausted. Please add more credits." :=
  ⟨C7_error_status_mapping 429 (by decide), by decide, by decide, by decide, by decide⟩

namespace DeviceDetection

theorem detectObjects_warn {st : DetectorState} {preds : List Prediction} {now : ℤ}
    (h : (preds.filter isSuspicious).isEmpty = false)
    (hgap : now - st.lastWarningTime > 5000) :
    detectObjects st preds now =
      { lastWarningTime := now
        deviceWarningCount := st.deviceWarningCount + 1
        currentDeviceWarning := some (String.intercalate ", "
          (dedupFirst ((preds.filter isSuspicious).map fun p => p.label)))
        detectedDevices := st.detectedDevices ++
          (dedupFirst ((preds.filter isSuspicious).map fun p => p.label)).map fun name =>
            ⟨name, (((preds.filter isSuspicious).find? fun p => p.label = name).map
              fun p => p.score).getD 0, now⟩ } := by
  unfold detectObjects
  simp [h, hgap]

theorem detectObjects_skip {st : DetectorState} {preds : List Prediction} {now : ℤ}
    (hgap : ¬ now - st.lastWarningTime > 5000) :
    detectObjects st preds now = st := by
  unfold detectObjects
  by_cases h : (preds.filter isSuspicious).isEmpty
  · simp [h]
  · simp [h, hgap]

/-! ## Claim C6 -/

/-- C6 as stated is false at the boundary: two suspicious detections at
times 10000 and 15000 — exactly 5 seconds apart — collapse to a single
warning, because the debounce requires strictly more than 5000 ms. -/
theorem C6_counterexample :
    (detectObjects initialDetectorState
        [⟨"cell phone", mkRat 9 10⟩] 10000).deviceWarningCount = 1 ∧
      (detectObjects (detectObjects initialDetectorState [⟨"cell phone", mkRat 9 10⟩] 10000)
        [⟨"cell phone", mkRat 9 10⟩] 15000).deviceWarningCount = 1 ∧
      ((15000 : ℤ) - 10000 = 5000) := by
  refine ⟨by decide, ?_, by decide⟩
  decide

/-- C6 (amended): a suspicious detection strictly more than 5000 ms
after the last warning raises exactly one device warning, records the
deduplicated matched labels, and moves the debounce timestamp to the
detection time; a second suspicious detection strictly more than 5000 ms
later raises another warning, while one at most 5000 ms later (5 seconds
or less) leaves the state — and the warning count — unchanged. -/
theorem C6_debounce (st : DetectorState) (preds1 preds2 : List Prediction) (t1 t2 : ℤ)
    (h1 : (preds1.filter isSuspicious).isEmpty = false)
    (h2 : (preds2.filter isSuspicious).isEmpty = false)
    (hgap1 : t1 - st.lastWarningTime > 5000) :
    ((detectObjects st preds1 t1).deviceWarningCount = st.deviceWarningCount + 1 ∧
      (detectObjects st preds1 t1).lastWarningTime = t1 ∧
      (detectObjects st preds1 t1).currentDeviceWarning = some (String.intercalate ", "
        (dedupFirst ((preds1.filter isSuspicious).map fun p => p.label)))) ∧
    (t2 - t1 > 5000 →
      (detectObjects (detectObjects st preds1 t1) preds2 t2).deviceWarningCount =
        st.deviceWarningCount + 2) ∧
    (t2 - t1 ≤ 5000 →
      detectObjects (detectObjects st preds1 t1) preds2 t2 = detectObjects st preds1 t1) := by
  have hw := detectObjects_warn h1 hgap1
  refine ⟨⟨by rw [hw], by rw [hw], by rw [hw]⟩, ?_, ?_⟩
  · intro hgap2
    have hlast : (detectObjects st preds1 t1).lastWarningTime = t1 := by rw [hw]
    have hw2 := @detectObjects_warn (detectObjects st preds1 t1) preds2 t2 h2
      (by rw [hlast]; exact hgap2)
    rw [hw2, hw]
  · intro hgap2
    apply detectObjects_skip
    rw [hw]
    show ¬ t2 - t1 > 5000
    omega

/-- Witness for the amended C6: a 90%-confidence cell-phone prediction
at t=10000 over the initial state, with follow-up times 20000 (both
warnings register) and 15000 (collapse) reachable from the two
implications. -/
theorem C6_debounce_witness :
    ((detectObjects initialDetectorState
          [⟨"cell phone", mkRat 9 10⟩] 10000).deviceWarningCount =
        initialDetectorState.deviceWarningCount + 1 ∧
      (detectObjects initialDetectorState
          [⟨"cell phone", mkRat 9 10⟩] 10000).lastWarningTime = 10000 ∧
      (detectObjects initialDetectorState
          [⟨"cell phone", mkRat 9 10⟩] 10000).currentDeviceWarning =
        some (String.intercalate ", " (dedupFirst
          ((([⟨"cell phone", mkRat 9 10⟩] : List Prediction).filter isSuspicious).map
            fun p => p.label)))) ∧
    ((20000 : ℤ) - 10000 > 5000 →
      (detectObjects (detectObjects initialDetectorState
          [⟨"cell phone", mkRat 9 10⟩] 10000) [⟨"cell phone", mkRat 9 10⟩]
        20000).deviceWarningCount = initialDetectorState.deviceWarningCount + 2) ∧
    ((20000 : ℤ) - 10000 ≤ 5000 →
      detectObjects (detectObjects initialDetectorState
          [⟨"cell phone", mkRat 9 10⟩] 10000) [⟨"cell phone", mkRat 9 10⟩] 20000 =
        detectObjects initialDetectorState [⟨"cell phone", mkRat 9 10⟩] 10000) :=
  C6_debounce initialDetectorState [⟨"cell phone", mkRat 9 10⟩]
    [⟨"cell phone", mkRat 9 10⟩] 10000 20000 (by decide) (by decide) (by decide)

end DeviceDetection

namespace InterviewPage

/-! ## Claim C5 -/

/-- C5: the penalty-ledger invariant `totalPenaltyPercent ==
5*tabSwitchCount + 10*deviceWarningCount` is violated by the code: after
one device warning, a submission attempt and a submission failure, the
device-penalty effect re-runs on re-entering the interview step and
charges a second 10-point penalty, leaving a penalty of 20 with 0 tab
switches and 1 device warning (the invariant demands 10). -/
theorem C5_invariant_violation :
    (runPenalty initialPenaltyState
        [.questionsLoaded, .deviceWarningRaised, .submitStart, .submitFail]).scorePenalty = 20 ∧
      (runPenalty initialPenaltyState
        [.questionsLoaded, .deviceWarningRaised, .submitStart, .submitFail]).tabSwitchCount = 0 ∧
      (runPenalty initialPenaltyState
        [.questionsLoaded, .deviceWarningRaised, .submitStart, .submitFail]).deviceWarningCount = 1 ∧
      5 * 0 + 10 * 1 ≠ 20 := by
  refine ⟨by decide, by decide, by decide, by decide⟩

/-! ## Claim C8 -/

/-- C8 as stated is false: when the generate-questions invocation fails
with 429, the interview record inserted before the oracle call remains
persisted with status `in_progress` — partial state survives the failed
RoleSelection → QuestionLoop transition. -/
theorem C8_counterexample :
    (clientGenerateQuestions ⟨.role, [], none, []⟩ "software-engineer" 1
        (.failure ⟨429, "Rate limit exceeded. Please try again later."⟩)).dbInterviews =
      [⟨1, "software-engineer", "in_progress"⟩] ∧
      (clientGenerateQuestions ⟨.role, [], none, []⟩ "software-engineer" 1
        (.failure ⟨429, "Rate limit exceeded. Please try again later."⟩)).dbInterviews ≠ [] := by
  refine ⟨by decide, by decide⟩

/-- C8 (amended): on any failed generate-questions invocation the client
does not transition to the interview step and sets no questions, but the
interview record inserted before the oracle call is kept (status
`in_progress`) and its id remains stored. -/
theorem C8_failure_keeps_inserted_record (s : ClientState) (role : String) (newId : Nat)
    (resp : ErrorResponse) :
    (clientGenerateQuestions s role newId (.failure resp)).step = s.step ∧
      (clientGenerateQuestions s role newId (.failure resp)).questions = s.questions ∧
      (clientGenerateQuestions s role newId (.failure resp)).dbInterviews =
        s.dbInterviews ++ [⟨newId, role, "in_progress"⟩] ∧
      (clientGenerateQuestions s role newId (.failure resp)).interviewId = some newId :=
  ⟨rfl, rfl, rfl, rfl⟩

/-! ## Claim C9 -/

theorem setAnswer_length (qs : List QuestionRec) (i : Nat) (a : String) :
    (setAnswer qs i a).length = qs.length := by
  unfold setAnswer
  cases h : qs.get? i
  · rfl
  · simp

theorem setAnswer_get?_ne (qs : List QuestionRec) {i j : Nat} (a : String) (h : i ≠ j) :
    (setAnswer qs j a).get? i = qs.get? i := by
  unfold setAnswer
  cases hj : qs.get? j
  · rfl
  · exact List.get?_set_ne _ _ (Ne.symm h)

theorem setAnswer_get?_self {qs : List QuestionRec} {i : Nat} {q : QuestionRec} (a : String)
    (h : qs.get? i = some q) :
    (setAnswer qs i a).get? i = some { q with answer := some a } := by
  unfold setAnswer
  rw [h]
  obtain ⟨hi, -⟩ := List.get?_eq_some.mp h
  exact List.get?_set_eq_of_lt _ hi

theorem setAnswer_idem (qs : List QuestionRec) (i : Nat) (a : String) :
    setAnswer (setAnswer qs i a) i a = setAnswer qs i a := by
  cases h : qs.get? i with
  | none =>
    simp only [setAnswer, h]
  | some q =>
    obtain ⟨hi, -⟩ := List.get?_eq_some.mp h
    have h2 : (qs.set i { q with answer := some a }).get? i =
        some { q with answer := some a } := List.get?_set_eq_of_lt _ (by simpa using hi)
    simp only [setAnswer, h, h2, List.set_set]

theorem handleNext_err_last {s : SubmitState}
    (h : ¬ s.currentQuestion < s.questions.length - 1) :
    handleNext s .err =
      { s with
        step := .interview
        questions := setAnswer s.questions s.currentQuestion s.currentAnswer } := by
  unfold handleNext submitInterview
  rw [if_neg h]

theorem handleNext_ok_last {s : SubmitState}
    (h : ¬ s.currentQuestion < s.questions.length - 1) :
    handleNext s .ok =
      { s with
        step := .completed
        questions := setAnswer s.questions s.currentQuestion s.currentAnswer } := by
  unfold handleNext submitInterview
  rw [if_neg h]

/-- C9: when the feedback call fails during submission, the session
returns from Submitting to the interview step at the same (last)
question, the just-entered answer is recorded in the last question,
every other question keeps its answer, and the answer box still holds
the entered text; retrying then reaches the completed state with the
same questions and answers. -/
theorem C9_submit_failure_preserves_answers (s : SubmitState) (i : Nat) (q : QuestionRec)
    (hstep : s.step = .interview)
    (hlast : s.currentQuestion = s.questions.length - 1)
    (hi : i ≠ s.currentQuestion)
    (hq : s.questions.get? s.currentQuestion = some q) :
    (handleNext s .err).step = .interview ∧
      (handleNext s .err).currentQuestion = s.currentQuestion ∧
      (handleNext s .err).currentAnswer = s.currentAnswer ∧
      (handleNext s .err).questions.length = s.questions.length ∧
      (handleNext s .err).questions.get? i = s.questions.get? i ∧
      (handleNext s .err).questions.get? s.currentQuestion =
        some { q with answer := some s.currentAnswer } ∧
      (handleNext (handleNext s .err) .ok).step = .completed ∧
      (handleNext (handleNext s .err) .ok).questions = (handleNext s .err).questions := by
  have hnotlt : ¬ s.currentQuestion < s.questions.length - 1 := by
    rw [hlast]
    omega
  have he := handleNext_err_last hnotlt
  have hlen := setAnswer_length s.questions s.currentQuestion s.currentAnswer
  have hnotlt2 : ¬ (handleNext s .err).currentQuestion <
      (handleNext s .err).questions.length - 1 := by
    rw [he]
    simpa [hlen] using hnotlt
  have he2 := handleNext_ok_last hnotlt2
  rw [he2, he]
  refine ⟨rfl, rfl, rfl, hlen, setAnswer_get?_ne _ _ hi, setAnswer_get?_self _ hq, rfl, ?_⟩
  exact setAnswer_idem s.questions s.currentQuestion s.currentAnswer

/-- Witness for C9: two questions, the first already answered, the
current answer "a2" at the last question; after a failed submission the
state is back at the interview step with both answers present, and the
retry completes with the same questions. -/
theorem C9_submit_failure_preserves_answers_witness :
    ((handleNext ⟨.interview, [⟨"q1", some "a1"⟩, ⟨"q2", none⟩], 1, "a2"⟩ .err).step =
        .interview ∧
      (handleNext ⟨.interview, [⟨"q1", some "a1"⟩, ⟨"q2", none⟩], 1, "a2"⟩
          .err).currentQuestion = 1 ∧
      (handleNext ⟨.interview, [⟨"q1", some "a1"⟩, ⟨"q2", none⟩], 1, "a2"⟩
          .err).currentAnswer = "a2" ∧
      (handleNext ⟨.interview, [⟨"q1", some "a1"⟩, ⟨"q2", none⟩], 1, "a2"⟩
          .err).questions.length =
        ([⟨"q1", some "a1"⟩, ⟨"q2", none⟩] : List QuestionRec).length ∧
      (handleNext ⟨.interview, [⟨"q1", some "a1"⟩, ⟨"q2", none⟩], 1, "a2"⟩
          .err).questions.get? 0 =
        ([⟨"q1", some "a1"⟩, ⟨"q2", none⟩] : List QuestionRec).get? 0 ∧
      (handleNext ⟨.interview, [⟨"q1", some "a1"⟩, ⟨"q2", none⟩], 1, "a2"⟩
          .err).questions.get? 1 = some ⟨"q2", some "a2"⟩ ∧
      (handleNext (handleNext ⟨.interview, [⟨"q1", some "a1"⟩, ⟨"q2", none⟩], 1, "a2"⟩ .err)
          .ok).step = .completed ∧
      (handleNext (handleNext ⟨.interview, [⟨"q1", some "a1"⟩, ⟨"q2", none⟩], 1, "a2"⟩ .err)
          .ok).questions =
        (handleNext ⟨.interview, [⟨"q1", some "a1"⟩, ⟨"q2", none⟩], 1, "a2"⟩
          .err).questions) ∧
    (handleNext ⟨.interview, [⟨"q1", some "a1"⟩, ⟨"q2", none⟩], 1, "a2"⟩ .err).questions =
      [⟨"q1", some "a1"⟩, ⟨"q2", some "a2"⟩] :=
  ⟨C9_submit_failure_preserves_answers ⟨.interview, [⟨"q1", some "a1"⟩, ⟨"q2", none⟩], 1, "a2"⟩
      0 ⟨"q2", none⟩ rfl (by decide) (by decide) (by decide),
   by decide⟩

end InterviewPage

end PrepAI
